import Mathlib

/-!
Verification of the dataflow-graph / incremental recomputation engine of
`src/nodes.py` (classes `ValueNode`, `ProcedureNode`, `Simulator` and the
helper `_type_fits`, together with the status machinery of `src/tools.py`
that they report through).

The embedding is a faithful shallow translation of the Python source:

* Python runtime types and values relevant to the engine are `PyType`/`PyVal`;
  `type_fits` is `_type_fits` (nodes.py lines 1076-1083) over the
  `issubclass` relation restricted to this universe (`bool` is a subclass of
  `int`, everything is a subclass of itself).
* A graph state (`Graph`) holds the value nodes keyed by their `Simulator`
  name (names are in bijection with node objects in the source) and the
  procedure nodes indexed by their creation order.  Object identity in the
  source becomes name/index equality here.
* Mutating methods become state-passing functions.  Methods whose callers
  `assert` on their status, and `tools.Status._set_status` calls with a value
  that is not among the declared status values (an `assert` inside
  `_set_status`, tools.py lines 134-138), are modelled by returning `none`:
  a Python `AssertionError` aborts the run.
* Recursion through the graph (`validate` / `invalidate` cascades) uses
  explicit fuel; `none` is also returned on fuel exhaustion, so every `some`
  result is a faithfully completed run of the Python code.
* Adapter objects (`Procedure` instances, nodes.py lines 299-342) are
  abstract: a state type `α` plus `AdapterOps α` giving the `put` and `get`
  methods, each returning the new adapter state and the status it sets.
  Calls made by the engine to adapter methods are logged in a `Trace` so that
  "the adapter was (not) invoked" is directly observable.
-/

namespace Sintez

/-- Python runtime types that flow through the engine: the numeric tower plus
`bool`, `str`, and `NoneType` (the type of `None`, produced by failed
queries). -/
inductive PyType
  | tBool | tInt | tFloat | tComplex | tStr | tNone
deriving DecidableEq, Repr

/-- Python runtime values of those types.  `float`/`complex` payloads are
opaque encodings; the engine never computes with them. -/
inductive PyVal
  | vBool (b : Bool)
  | vInt (n : Int)
  | vFloat (enc : Int)
  | vComplex (re im : Int)
  | vStr (s : String)
  | vNone
deriving DecidableEq, Repr

/-- Python `type(value)` on this universe. -/
def PyVal.typeOf : PyVal → PyType
  | .vBool _ => .tBool
  | .vInt _ => .tInt
  | .vFloat _ => .tFloat
  | .vComplex _ _ => .tComplex
  | .vStr _ => .tStr
  | .vNone => .tNone

/-- Python `issubclass(t, r)` restricted to this universe: every type is a
subclass of itself and `bool` is a subclass of `int`. -/
def pyIssubclass (t r : PyType) : Bool :=
  t == r || (t == .tBool && r == .tInt)

/-- Translation of `_type_fits(t, required)`, nodes.py lines 1076-1083. -/
def type_fits (t required : PyType) : Bool :=
  if pyIssubclass t required then true
  else if required == .tComplex then t == .tInt || t == .tFloat
  else if required == .tFloat then t == .tInt
  else false

/-- Python `str(type)` for the auto-value mismatch diagnostic. -/
def PyType.pystr : PyType → String
  | .tBool => "<class 'bool'>"
  | .tInt => "<class 'int'>"
  | .tFloat => "<class 'float'>"
  | .tComplex => "<class 'complex'>"
  | .tStr => "<class 'str'>"
  | .tNone => "<class 'NoneType'>"

/-- State of one `ValueNode` (nodes.py lines 523-690).  `input` holds the
index of the producing `ProcedureNode` (the `__input` reference), `outputs`
the indices of the consumer nodes (the `__outputs` set, in insertion order);
`value` is `none` while the `__value` attribute is still unset. -/
structure ValueNode where
  value_type : PyType
  build_complete : Bool := false
  is_valid : Bool := false
  value : Option PyVal := none
  input : Option Nat := none
  outputs : List Nat := []
deriving DecidableEq, Repr

/-- The `ValueNode` constructor (nodes.py lines 538-544). -/
def ValueNode.create (t : PyType) : ValueNode := { value_type := t }

/-- `ValueNode.add_input` (nodes.py lines 554-566): attach a producer.
Returns the (possibly unchanged) node and the status it sets. -/
def ValueNode.add_input (v : ValueNode) (pid : Nat) : ValueNode × String :=
  if v.build_complete then (v, "BUILD_COMPLETE")
  else if v.outputs.contains pid || v.input == some pid then (v, "ALREADY_LINKED")
  else if v.input.isSome then (v, "TOO_MANY_INPUTS")
  else ({ v with input := some pid }, "OK")

/-- `ValueNode.add_output` (nodes.py lines 572-581): attach a consumer. -/
def ValueNode.add_output (v : ValueNode) (pid : Nat) : ValueNode × String :=
  if v.build_complete then (v, "BUILD_COMPLETE")
  else if v.outputs.contains pid || v.input == some pid then (v, "ALREADY_LINKED")
  else ({ v with outputs := v.outputs ++ [pid] }, "OK")

/-- Adapter interface: the `Procedure` methods the engine calls
(nodes.py lines 316-342).  `put` returns the new adapter state and the
status it sets; `get` additionally returns the value (Python returns `None`
on failure, here `PyVal.vNone`). -/
structure AdapterOps (α : Type) where
  put : α → String → PyVal → α × String
  get : α → String → α × String × PyVal

/-- State of one `ProcedureNode` (nodes.py lines 702-853).  `inputs` and
`outputs` are the `__inputs`/`__outputs` dicts in insertion order, mapping a
slot name to the name of the linked value node; `new_inputs` is the
`__new_inputs` set of value-node names. -/
structure ProcNode (α : Type) where
  procedure : α
  inputs : List (String × String) := []
  outputs : List (String × String) := []
  build_complete : Bool := false
  new_inputs : List String := []
deriving DecidableEq, Repr

/-- The `ProcedureNode` constructor (nodes.py lines 716-722). -/
def ProcNode.create (a : α) : ProcNode α := { procedure := a }

/-- `ProcedureNode.__is_node_linked` (nodes.py lines 847-849). -/
def ProcNode.is_node_linked (p : ProcNode α) (vname : String) : Bool :=
  (p.inputs.map (·.2)).contains vname || (p.outputs.map (·.2)).contains vname

/-- `ProcedureNode.__is_slot_linked` (nodes.py lines 851-853). -/
def ProcNode.is_slot_linked (p : ProcNode α) (name : String) : Bool :=
  (p.inputs.map (·.1)).contains name || (p.outputs.map (·.1)).contains name

/-- `ProcedureNode.add_input` (nodes.py lines 732-744). -/
def ProcNode.add_input (p : ProcNode α) (name vname : String) : ProcNode α × String :=
  if p.build_complete then (p, "BUILD_COMPLETE")
  else if p.is_node_linked vname then (p, "ALREADY_LINKED")
  else if p.is_slot_linked name then (p, "DUPLICATE_NAME")
  else ({ p with inputs := p.inputs ++ [(name, vname)] }, "OK")

/-- `ProcedureNode.add_output` (nodes.py lines 752-764). -/
def ProcNode.add_output (p : ProcNode α) (name vname : String) : ProcNode α × String :=
  if p.build_complete then (p, "BUILD_COMPLETE")
  else if p.is_node_linked vname then (p, "ALREADY_LINKED")
  else if p.is_slot_linked name then (p, "DUPLICATE_NAME")
  else ({ p with outputs := p.outputs ++ [(name, vname)] }, "OK")

/-- Python `set.add`: append if absent. -/
def addToSet (l : List String) (x : String) : List String :=
  if l.contains x then l else l ++ [x]

/-- The wired network: value nodes keyed by `Simulator` name, procedure
nodes indexed by creation order. -/
structure Graph (α : Type) where
  values : List (String × ValueNode)
  procs : List (ProcNode α)
deriving DecidableEq, Repr

def lookupVal (g : Graph α) (name : String) : Option ValueNode :=
  (g.values.find? (·.1 == name)).map (·.2)

def setVal (g : Graph α) (name : String) (v : ValueNode) : Graph α :=
  { g with values := g.values.map (fun p => if p.1 == name then (p.1, v) else p) }

def lookupProc (g : Graph α) (pid : Nat) : Option (ProcNode α) :=
  g.procs[pid]?

def setProc (g : Graph α) (pid : Nat) (p : ProcNode α) : Graph α :=
  { g with procs := g.procs.set pid p }

/-- One adapter call made by the engine: procedure-node index, `"put"` or
`"get"`, and the adapter slot name. -/
abbrev Trace := List (Nat × String × String)

mutual

/-- `ValueNode.invalidate` (nodes.py lines 617-628): mark the value invalid
and cascade to all consumers, asserting each consumer reports `OK`. -/
def value_invalidate (ops : AdapterOps α) (fuel : Nat) (g : Graph α)
    (name : String) : Option (Graph α × String) :=
  match fuel with
  | 0 => none
  | f + 1 =>
    match lookupVal g name with
    | none => none
    | some v =>
      if !v.build_complete then some (g, "BUILD_INCOMPLETE")
      else if !v.is_valid then some (g, "OK")
      else
        match proc_invalidate_list ops f (setVal g name { v with is_valid := false })
            v.outputs name with
        | none => none
        | some g1 => some (g1, "OK")

/-- The `for output in self.__outputs` loop of `ValueNode.put`/`invalidate`
(nodes.py lines 607-610 and 625-628): send `invalidate` to every consumer
procedure node; the `assert output.is_status("invalidate", "OK")` makes any
non-`OK` report an `AssertionError`. -/
def proc_invalidate_list (ops : AdapterOps α) (fuel : Nat) (g : Graph α)
    (pids : List Nat) (vname : String) : Option (Graph α) :=
  match fuel with
  | 0 => none
  | f + 1 =>
    match pids with
    | [] => some g
    | pid :: rest =>
      match proc_invalidate ops f g pid vname with
      | none => none
      | some (g1, st) =>
        if st == "OK" then proc_invalidate_list ops f g1 rest vname else none

/-- `ProcedureNode.invalidate` (nodes.py lines 777-789): mark the calling
input as new and cascade `invalidate` to every output value node. -/
def proc_invalidate (ops : AdapterOps α) (fuel : Nat) (g : Graph α)
    (pid : Nat) (vname : String) : Option (Graph α × String) :=
  match fuel with
  | 0 => none
  | f + 1 =>
    match lookupProc g pid with
    | none => none
    | some p =>
      if !p.build_complete then some (g, "BUILD_INCOMPLETE")
      else if !(p.inputs.map (·.2)).contains vname then some (g, "NOT_INPUT")
      else
        match value_invalidate_list ops f
            (setProc g pid { p with new_inputs := addToSet p.new_inputs vname })
            (p.outputs.map (·.2)) with
        | none => none
        | some g1 => some (g1, "OK")

/-- The `for output in self.__outputs.values()` loop of
`ProcedureNode.invalidate` (nodes.py lines 787-789), with its
`assert output.is_status("invalidate", "OK")`. -/
def value_invalidate_list (ops : AdapterOps α) (fuel : Nat) (g : Graph α)
    (names : List String) : Option (Graph α) :=
  match fuel with
  | 0 => none
  | f + 1 =>
    match names with
    | [] => some g
    | n :: rest =>
      match value_invalidate ops f g n with
      | none => none
      | some (g1, st) =>
        if st == "OK" then value_invalidate_list ops f g1 rest else none

end

/-- `ValueNode.put` (nodes.py lines 597-610): type-check the value against
the declared type, store it, mark the node valid, and send `invalidate` to
every consumer (asserting each reports `OK`). -/
def value_put (ops : AdapterOps α) (fuel : Nat) (g : Graph α)
    (name : String) (value : PyVal) : Option (Graph α × String) :=
  match lookupVal g name with
  | none => none
  | some v =>
    if !v.build_complete then some (g, "BUILD_INCOMPLETE")
    else if !type_fits value.typeOf v.value_type then some (g, "INCOMPATIBLE_TYPE")
    else
      match proc_invalidate_list ops fuel
          (setVal g name { v with value := some value, is_valid := true })
          v.outputs name with
      | none => none
      | some g1 => some (g1, "OK")

/-- `ValueNode.get` as called with its callers' asserts (nodes.py
lines 682-690 at call sites 814-818 and 1070-1071): the node must be built
and valid and the `__value` attribute set, else the run aborts. -/
def value_get (g : Graph α) (name : String) : Option PyVal :=
  match lookupVal g name with
  | none => none
  | some v =>
    if !v.build_complete then none
    else if !v.is_valid then none
    else v.value

/-- The second loop of `ProcedureNode.validate` (nodes.py lines 811-823):
for every input, in dict order, that is still in `__new_inputs`, fetch its
value (asserting it is valid) and `put` it into the adapter; stop with
status `FAIL` (`false` here) if the adapter does not report `OK`, and remove
the input from `__new_inputs` when it does.  Membership in `__new_inputs` is
tested against the live set.  Adapter calls are logged. -/
def feed_new_inputs (ops : AdapterOps α) (g : Graph α) (pid : Nat) :
    List (String × String) → Option (Graph α × Bool × Trace)
  | [] => some (g, true, [])
  | (slot, vname) :: rest =>
    match lookupProc g pid with
    | none => none
    | some p =>
      if !p.new_inputs.contains vname then feed_new_inputs ops g pid rest
      else
        match lookupVal g vname with
        | none => none
        | some v =>
          if !v.build_complete then none
          else if !v.is_valid then none
          else
            match v.value with
            | none => none
            | some data =>
              if (ops.put p.procedure slot data).2 != "OK" then
                some (setProc g pid { p with procedure := (ops.put p.procedure slot data).1 },
                  false, [(pid, "put", slot)])
              else
                match feed_new_inputs ops
                    (setProc g pid
                      { p with procedure := (ops.put p.procedure slot data).1,
                               new_inputs := p.new_inputs.erase vname })
                    pid rest with
                | none => none
                | some (g2, ok, tr) => some (g2, ok, (pid, "put", slot) :: tr)

/-- The third loop of `ProcedureNode.validate` (nodes.py lines 824-832):
`get` every output slot from the adapter and `put` the result into the
output value node, stopping with status `FAIL` (`false` here) when either
reports non-`OK`.  Adapter calls are logged. -/
def write_outputs (ops : AdapterOps α) (fuel : Nat) (g : Graph α) (pid : Nat) :
    List (String × String) → Option (Graph α × Bool × Trace)
  | [] => some (g, true, [])
  | (slot, vname) :: rest =>
    match lookupProc g pid with
    | none => none
    | some p =>
      if (ops.get p.procedure slot).2.1 != "OK" then
        some (setProc g pid { p with procedure := (ops.get p.procedure slot).1 },
          false, [(pid, "get", slot)])
      else
        match value_put ops fuel
            (setProc g pid { p with procedure := (ops.get p.procedure slot).1 })
            vname (ops.get p.procedure slot).2.2 with
        | none => none
        | some (g2, pst) =>
          if pst != "OK" then some (g2, false, [(pid, "get", slot)])
          else
            match write_outputs ops fuel g2 pid rest with
            | none => none
            | some (g3, ok, tr) => some (g3, ok, (pid, "get", slot) :: tr)

mutual

/-- `ValueNode.validate` (nodes.py lines 636-651): a valid node reports `OK`
at once; an invalid node with no producer reports `NO_VALUE_SOURCE`;
otherwise the producer is validated and its failure surfaces as
`INPUT_FAILED`. -/
def value_validate (ops : AdapterOps α) (fuel : Nat) (g : Graph α)
    (name : String) : Option (Graph α × String × Trace) :=
  match fuel with
  | 0 => none
  | f + 1 =>
    match lookupVal g name with
    | none => none
    | some v =>
      if !v.build_complete then some (g, "BUILD_INCOMPLETE", [])
      else if v.is_valid then some (g, "OK", [])
      else
        match v.input with
        | none => some (g, "NO_VALUE_SOURCE", [])
        | some pid =>
          match proc_validate ops f g pid with
          | none => none
          | some (g1, st, tr) =>
            if st == "OK" then some (g1, "OK", tr) else some (g1, "INPUT_FAILED", tr)

/-- The first loop of `ProcedureNode.validate` (nodes.py lines 806-810):
validate every input value node in dict order, stopping (`false`) at the
first non-`OK` report. -/
def validate_inputs (ops : AdapterOps α) (fuel : Nat) (g : Graph α)
    (names : List String) : Option (Graph α × Bool × Trace) :=
  match fuel with
  | 0 => none
  | f + 1 =>
    match names with
    | [] => some (g, true, [])
    | n :: rest =>
      match value_validate ops f g n with
      | none => none
      | some (g1, st, tr) =>
        if st == "OK" then
          match validate_inputs ops f g1 rest with
          | none => none
          | some (g2, ok, tr2) => some (g2, ok, tr ++ tr2)
        else some (g1, false, tr)

/-- `ProcedureNode.validate` (nodes.py lines 802-833): validate all inputs,
feed the new inputs to the adapter, then rewrite every output from the
adapter. -/
def proc_validate (ops : AdapterOps α) (fuel : Nat) (g : Graph α)
    (pid : Nat) : Option (Graph α × String × Trace) :=
  match fuel with
  | 0 => none
  | f + 1 =>
    match lookupProc g pid with
    | none => none
    | some p =>
      if !p.build_complete then some (g, "BUILD_INCOMPLETE", [])
      else
        match validate_inputs ops f g (p.inputs.map (·.2)) with
        | none => none
        | some (g1, ok, tr1) =>
          if !ok then some (g1, "INPUT_VALIDATION_FAILED", tr1)
          else
            match lookupProc g1 pid with
            | none => none
            | some p1 =>
              match feed_new_inputs ops g1 pid p1.inputs with
              | none => none
              | some (g2, ok2, tr2) =>
                if !ok2 then some (g2, "FAIL", tr1 ++ tr2)
                else
                  match lookupProc g2 pid with
                  | none => none
                  | some p2 =>
                    match write_outputs ops f g2 pid p2.outputs with
                    | none => none
                    | some (g3, ok3, tr3) =>
                      if !ok3 then some (g3, "FAIL", tr1 ++ tr2 ++ tr3)
                      else some (g3, "OK", tr1 ++ tr2 ++ tr3)

end

/-! ## Simulator construction (nodes.py lines 856-1032) -/

/-- A `ValueLink` (nodes.py line 856): either the name of a value node or a
bare type requesting an auto-created node named after the port. -/
inductive ValueLink
  | byName (name : String)
  | byType (t : PyType)
deriving DecidableEq, Repr

/-- A `NodePattern` (nodes.py lines 857-859): a `("name", Type)` value
pattern or a `(procedure, inputs, outputs)` procedure pattern. -/
inductive NodePattern (α : Type)
  | value (name : String) (value_type : PyType)
  | proc (procedure : α) (inputs outputs : List (String × ValueLink))
deriving DecidableEq, Repr

def containsKey (l : List (String × β)) (k : String) : Bool :=
  l.any (·.1 == k)

def lookupKey (l : List (String × β)) (k : String) : Option β :=
  (l.find? (·.1 == k)).map (·.2)

/-- Construction-time state of the `Simulator`: the `__values`,`__procs` and
`__auto_value_types` dicts, the `"init"` entry of the `tools.Status` status
dict (`status`), `__init_message`, and the shadowed plain attribute
`self.__init_status` (nodes.py line 898) which is assigned `"NIL"` once and
never updated. -/
structure BuildState (α : Type) where
  values : List (String × ValueNode) := []
  procs : List (ProcNode α) := []
  auto_value_types : List (String × PyType) := []
  status : String := "NIL"
  message : String := ""
  plain_status : String := "NIL"
deriving DecidableEq, Repr

def bsSetVal (bs : BuildState α) (name : String) (v : ValueNode) : BuildState α :=
  { bs with values := bs.values.map (fun p => if p.1 == name then (p.1, v) else p) }

/-- `Simulator.__init_values` (nodes.py lines 927-934). -/
def init_values : BuildState α → List (String × PyType) → BuildState α
  | bs, [] => bs
  | bs, (name, t) :: rest =>
    if containsKey bs.values name then
      { bs with status := "DUPLICATE_NAME",
                message := "Duplicate name: '" ++ name ++ "'" }
    else init_values { bs with values := bs.values ++ [(name, ValueNode.create t)] } rest

/-- `Simulator.__add_auto_value` (nodes.py lines 994-1005).  When the name
already exists but was NOT auto-created (it came from an explicit value
pattern), the `assert name in self.__auto_value_types` on line 1000 fails:
the run aborts (`none`).  A type conflict between two auto-created slots is
reported through the `AUTO_VALUE_TYPE_MISMATCH` status instead. -/
def add_auto_value (bs : BuildState α) (name : String) (t : PyType) :
    Option (BuildState α) :=
  if !containsKey bs.values name then
    if containsKey bs.auto_value_types name then none
    else some { bs with
      auto_value_types := bs.auto_value_types ++ [(name, t)],
      values := bs.values ++ [(name, ValueNode.create t)] }
  else
    match lookupKey bs.auto_value_types name with
    | none => none
    | some t0 =>
      if t0 != t then
        let msg := "Auto value '" ++ name ++ "' type mismatch: " ++
          t.pystr ++ " and " ++ t0.pystr
        some { bs with status := "AUTO_VALUE_TYPE_MISMATCH", message := msg }
      else some bs

/-- `Simulator.__add_input` (nodes.py lines 1007-1017): link `value` as a
consumer feeding `proc`; `ALREADY_LINKED` from either side is recorded in
the init status, any other non-`OK` report fails an `assert`. -/
def sim_add_input (bs : BuildState α) (pid : Nat) (p : ProcNode α)
    (slot vname : String) : Option (BuildState α × ProcNode α) :=
  match lookupKey bs.values vname with
  | none => none
  | some v =>
    let r := v.add_output pid
    if r.2 == "ALREADY_LINKED" then some ({ bs with status := "ALREADY_LINKED" }, p)
    else if r.2 != "OK" then none
    else
      let bs1 := bsSetVal bs vname r.1
      let r2 := p.add_input slot vname
      if r2.2 == "ALREADY_LINKED" then some ({ bs1 with status := "ALREADY_LINKED" }, r2.1)
      else if r2.2 != "OK" then none
      else some (bs1, r2.1)

/-- `Simulator.__add_output` (nodes.py lines 1019-1032): `proc.add_output`
then `value.add_input`; `ALREADY_LINKED`/`TOO_MANY_INPUTS` are recorded in
the init status, any other non-`OK` report fails an `assert`. -/
def sim_add_output (bs : BuildState α) (pid : Nat) (p : ProcNode α)
    (slot vname : String) : Option (BuildState α × ProcNode α) :=
  let r := p.add_output slot vname
  if r.2 == "ALREADY_LINKED" then some ({ bs with status := "ALREADY_LINKED" }, r.1)
  else if r.2 != "OK" then none
  else
    match lookupKey bs.values vname with
    | none => none
    | some v =>
      let r2 := v.add_input pid
      if r2.2 == "ALREADY_LINKED" then some ({ bs with status := "ALREADY_LINKED" }, r.1)
      else if r2.2 == "TOO_MANY_INPUTS" then some ({ bs with status := "TOO_MANY_INPUTS" }, r.1)
      else if r2.2 != "OK" then none
      else some (bsSetVal bs vname r2.1, r.1)

/-- `Simulator.__add_inputs` (nodes.py lines 951-969).  Note that the guard
after `__add_auto_value` (line 956) tests the shadowed plain attribute
`self.__init_status`, which always holds `"NIL"`, so the loop continues even
after `AUTO_VALUE_TYPE_MISMATCH` was recorded in the real status. -/
def sim_add_inputs (bs : BuildState α) (pid : Nat) (p : ProcNode α) :
    List (String × ValueLink) → Option (BuildState α × ProcNode α)
  | [] => some (bs, p)
  | (slot, link) :: rest =>
    let step : Option (BuildState α × String) :=
      match link with
      | .byType t => (add_auto_value bs slot t).map (fun bs1 => (bs1, slot))
      | .byName s => some (bs, s)
    match step with
    | none => none
    | some (bs1, vname) =>
      if bs1.plain_status != "NIL" then some (bs1, p)
      else if !containsKey bs1.values vname then
        let msg := "Input not found: '" ++ slot ++ "': '" ++ vname ++ "'"
        some ({ bs1 with status := "NAME_NOT_FOUND", message := msg }, p)
      else
        match sim_add_input bs1 pid p slot vname with
        | none => none
        | some (bs2, p2) =>
          if bs2.status == "ALREADY_LINKED" then
            let msg := "Already linked: '" ++ slot ++ "': '" ++ vname ++ "'"
            some ({ bs2 with message := msg }, p2)
          else sim_add_inputs bs2 pid p2 rest

/-- `Simulator.__add_outputs` (nodes.py lines 971-992), symmetric to
`sim_add_inputs` with the additional `TOO_MANY_INPUTS` report. -/
def sim_add_outputs (bs : BuildState α) (pid : Nat) (p : ProcNode α) :
    List (String × ValueLink) → Option (BuildState α × ProcNode α)
  | [] => some (bs, p)
  | (slot, link) :: rest =>
    let step : Option (BuildState α × String) :=
      match link with
      | .byType t => (add_auto_value bs slot t).map (fun bs1 => (bs1, slot))
      | .byName s => some (bs, s)
    match step with
    | none => none
    | some (bs1, vname) =>
      if bs1.plain_status != "NIL" then some (bs1, p)
      else if !containsKey bs1.values vname then
        let msg := "Output not found: '" ++ slot ++ "': '" ++ vname ++ "'"
        some ({ bs1 with status := "NAME_NOT_FOUND", message := msg }, p)
      else
        match sim_add_output bs1 pid p slot vname with
        | none => none
        | some (bs2, p2) =>
          if bs2.status == "ALREADY_LINKED" then
            let msg := "Already linked: '" ++ slot ++ "': '" ++ vname ++ "'"
            some ({ bs2 with message := msg }, p2)
          else if bs2.status == "TOO_MANY_INPUTS" then
            let msg := "Too many inputs: '" ++ slot ++ "': '" ++ vname ++ "'"
            some ({ bs2 with message := msg }, p2)
          else sim_add_outputs bs2 pid p2 rest

/-- `Simulator.__init_procs` (nodes.py lines 937-948).  The guards between
the phases again test the never-updated plain attribute, so wiring continues
(and the node is appended) even after a failure was recorded. -/
def init_procs (bs : BuildState α) :
    List (α × List (String × ValueLink) × List (String × ValueLink)) →
    Option (BuildState α)
  | [] => some bs
  | (a, ins, outs) :: rest =>
    let pid := bs.procs.length
    match sim_add_inputs bs pid (ProcNode.create a) ins with
    | none => none
    | some (bs1, p1) =>
      if bs1.plain_status != "NIL" then some bs1
      else
        match sim_add_outputs bs1 pid p1 outs with
        | none => none
        | some (bs2, p2) =>
          if bs2.plain_status != "NIL" then some bs2
          else init_procs { bs2 with procs := bs2.procs ++ [p2] } rest

/-- The first loop of `Simulator.__init__` (nodes.py lines 902-907):
partition the pattern list, keeping order within each kind. -/
def value_patterns : List (NodePattern α) → List (String × PyType) :=
  List.filterMap fun pat =>
    match pat with
    | .value name t => some (name, t)
    | .proc _ _ _ => none

def proc_patterns : List (NodePattern α) →
    List (α × List (String × ValueLink) × List (String × ValueLink)) :=
  List.filterMap fun pat =>
    match pat with
    | .value _ _ => none
    | .proc a ins outs => some (a, ins, outs)

/-- The `complete_build` loops of `Simulator.__init__` (lines 915-918). -/
def complete_build (g : Graph α) : Graph α :=
  { values := g.values.map (fun p => (p.1, { p.2 with build_complete := true })),
    procs := g.procs.map (fun p => { p with build_complete := true }) }

/-- A constructed `Simulator` (nodes.py lines 875-924): the graph, the
`"init"` status and `__init_message`. -/
structure Simulator (α : Type) where
  graph : Graph α
  initStatus : String
  initMessage : String
deriving DecidableEq, Repr

/-- `Simulator.__init__` (nodes.py lines 896-919).  `none` is an
`AssertionError` escaping the constructor. -/
def buildSimulator (patterns : List (NodePattern α)) : Option (Simulator α) :=
  let bs0 := init_values {} (value_patterns patterns)
  if bs0.status != "NIL" then
    some ⟨⟨bs0.values, bs0.procs⟩, bs0.status, bs0.message⟩
  else
    match init_procs bs0 (proc_patterns patterns) with
    | none => none
    | some bs1 =>
      if bs1.status != "NIL" then
        some ⟨⟨bs1.values, bs1.procs⟩, bs1.status, bs1.message⟩
      else some ⟨complete_build ⟨bs1.values, bs1.procs⟩, "OK", bs1.message⟩

/-! ## Simulator runtime operations (nodes.py lines 1037-1073) -/

/-- The declared values of the `put` status of `Simulator`, inherited from
`Procedure.put` through `tools.StatusMeta` (nodes.py lines 323-325;
tools.py lines 37-48 add `NIL`). -/
def simulator_put_statuses : List String :=
  ["OK", "INVALID_NAME", "INCOMPATIBLE_TYPE", "INVALID_VALUE", "NIL"]

/-- The declared values of the `get` status of `Simulator`, inherited from
`Procedure.get` (nodes.py line 340). -/
def simulator_get_statuses : List String :=
  ["OK", "INVALID_NAME", "INCOMPLETE_INPUT", "NIL"]

/-- `tools.Status._set_status` (tools.py lines 134-138): storing a value
that is not among the declared values for the status fails an `assert`. -/
def set_status_checked (declared : List String) (value : String) : Option String :=
  if declared.contains value then some value else none

/-- `Simulator.put` (nodes.py lines 1037-1051).  On a failed construction it
attempts `_set_status("put", "INTERNAL_ERROR")`; after a successful inner
`ValueNode.put` check it asserts the node reported `OK`. -/
def Simulator.put (ops : AdapterOps α) (fuel : Nat) (s : Simulator α)
    (name : String) (value : PyVal) : Option (Simulator α × String) :=
  if s.initStatus != "OK" then
    (set_status_checked simulator_put_statuses "INTERNAL_ERROR").map (fun st => (s, st))
  else
    match lookupVal s.graph name with
    | none => some (s, "INVALID_NAME")
    | some v =>
      if v.input.isSome then some (s, "INVALID_NAME")
      else
        match value_put ops fuel s.graph name value with
        | none => none
        | some (g1, st) =>
          if st != "OK" then none
          else some ({ s with graph := g1 }, "OK")

/-- `Simulator.get` (nodes.py lines 1056-1073).  Any non-`OK` validation
report is collapsed into the single status `INCOMPLETE_INPUT` and `None`
(`vNone`) is returned. -/
def Simulator.get (ops : AdapterOps α) (fuel : Nat) (s : Simulator α)
    (name : String) : Option (Simulator α × String × PyVal × Trace) :=
  if s.initStatus != "OK" then
    (set_status_checked simulator_get_statuses "INTERNAL_ERROR").map
      (fun st => (s, st, PyVal.vNone, []))
  else
    match lookupVal s.graph name with
    | none => some (s, "INVALID_NAME", .vNone, [])
    | some _ =>
      match value_validate ops fuel s.graph name with
      | none => none
      | some (g1, vst, tr) =>
        if vst != "OK" then some ({ s with graph := g1 }, "INCOMPLETE_INPUT", .vNone, tr)
        else
          match value_get g1 name with
          | none => none
          | some v => some ({ s with graph := g1 }, "OK", v, tr)

/-! ## Concrete adapters for the scenarios -/

/-- Modelled from the spec: the divmod stub adapter of the end-to-end
scenario (spec section 8, "a two-stage pipeline computing
`q, r = divmod(a, b)`").  The repository's nodes.py defines only the
abstract `Procedure` interface (lines 299-342); the concrete divmod stub
that the scenario wires in lives in the test harnesses of other engine
revisions, so it is reconstructed here from the spec's words: `put` accepts
integer inputs on slots `left` and `right`; `get` serves `quotient` and
`remainder` by Python's floor-division `divmod` once both inputs are
present, and reports `INCOMPLETE_INPUT` before that.  The scenario only
exercises nonzero divisors (Python's `divmod` raises on zero). -/
structure DivmodState where
  left : Option Int := none
  right : Option Int := none
deriving DecidableEq, Repr

def divmodPut (a : DivmodState) (slot : String) (v : PyVal) : DivmodState × String :=
  if slot == "left" then
    match v with
    | .vInt n => ({ a with left := some n }, "OK")
    | _ => (a, "INCOMPATIBLE_TYPE")
  else if slot == "right" then
    match v with
    | .vInt n => ({ a with right := some n }, "OK")
    | _ => (a, "INCOMPATIBLE_TYPE")
  else (a, "INVALID_NAME")

def divmodGet (a : DivmodState) (slot : String) : DivmodState × String × PyVal :=
  match a.left, a.right with
  | some l, some r =>
    if slot == "quotient" then (a, "OK", .vInt (Int.fdiv l r))
    else if slot == "remainder" then (a, "OK", .vInt (Int.fmod l r))
    else (a, "INVALID_NAME", .vNone)
  | _, _ => (a, "INCOMPLETE_INPUT", .vNone)

def divmodOps : AdapterOps DivmodState := ⟨divmodPut, divmodGet⟩

/-- Modelled from the spec: a stub adapter whose `get` always reports
`INCOMPLETE_INPUT` (one of the declared outcomes of `Procedure.get`,
nodes.py line 340), exhibiting a procedure that fails when run. -/
def failOps : AdapterOps Unit :=
  ⟨fun a _ _ => (a, "OK"), fun a _ => (a, "INCOMPLETE_INPUT", .vNone)⟩

/-! ## The two-stage divmod pipeline scenario (spec section 8) -/

/-- Patterns for the pipeline: sources `a`, `b`, `c`; stage one computes
`q, r = divmod(a, b)`; stage two computes `q2, r2 = divmod(r, c)` through
the shared intermediate node `r`. -/
def pipePatterns : List (NodePattern DivmodState) :=
  [ .value "a" .tInt, .value "b" .tInt, .value "c" .tInt,
    .proc {} [("left", .byName "a"), ("right", .byName "b")]
             [("quotient", .byName "q"), ("remainder", .byName "r")],
    .value "q" .tInt, .value "r" .tInt,
    .proc {} [("left", .byName "r"), ("right", .byName "c")]
             [("quotient", .byName "q2"), ("remainder", .byName "r2")],
    .value "q2" .tInt, .value "r2" .tInt ]

def pipeSim : Option (Simulator DivmodState) := buildSimulator pipePatterns

/-- Run one `put` of an integer on the pipeline and keep the state. -/
def putInt (name : String) (n : Int) (s : Option (Simulator DivmodState)) :
    Option (Simulator DivmodState) :=
  s.bind fun s0 => (Simulator.put divmodOps 32 s0 name (.vInt n)).map (·.1)

def pipeLoaded : Option (Simulator DivmodState) :=
  putInt "c" 3 (putInt "b" 7 (putInt "a" 101 pipeSim))

/-- The first query of the scenario: `get("q2")` after
`put(a=101), put(b=7), put(c=3)`; keeps the state, the reported status and
the returned value. -/
def pipeQueried : Option (Simulator DivmodState × String × PyVal) :=
  pipeLoaded.bind fun s =>
    (Simulator.get divmodOps 32 s "q2").map (fun r => (r.1, r.2.1, r.2.2.1))

def pipeAfterQuery : Option (Simulator DivmodState) := pipeQueried.map (·.1)

/-! Intermediate states of the pipeline scenario, spelled out so that each
execution step can be checked separately against them. -/

/-- The freshly built pipeline simulator. -/
def pipeSimLit : Simulator DivmodState := ⟨⟨[
  ("a", { value_type := .tInt, build_complete := true, outputs := [0] }),
  ("b", { value_type := .tInt, build_complete := true, outputs := [0] }),
  ("c", { value_type := .tInt, build_complete := true, outputs := [1] }),
  ("q", { value_type := .tInt, build_complete := true, input := some 0 }),
  ("r", { value_type := .tInt, build_complete := true, input := some 0, outputs := [1] }),
  ("q2", { value_type := .tInt, build_complete := true, input := some 1 }),
  ("r2", { value_type := .tInt, build_complete := true, input := some 1 })],
  [{ procedure := {}, inputs := [("left", "a"), ("right", "b")],
     outputs := [("quotient", "q"), ("remainder", "r")], build_complete := true },
   { procedure := {}, inputs := [("left", "r"), ("right", "c")],
     outputs := [("quotient", "q2"), ("remainder", "r2")], build_complete := true }]⟩,
  "OK", ""⟩

/-- The pipeline after `put("a", 101)`. -/
def pipeS1 : Simulator DivmodState := ⟨⟨[
  ("a", { value_type := .tInt, build_complete := true, is_valid := true,
          value := some (.vInt 101), outputs := [0] }),
  ("b", { value_type := .tInt, build_complete := true, outputs := [0] }),
  ("c", { value_type := .tInt, build_complete := true, outputs := [1] }),
  ("q", { value_type := .tInt, build_complete := true, input := some 0 }),
  ("r", { value_type := .tInt, build_complete := true, input := some 0, outputs := [1] }),
  ("q2", { value_type := .tInt, build_complete := true, input := some 1 }),
  ("r2", { value_type := .tInt, build_complete := true, input := some 1 })],
  [{ procedure := {}, inputs := [("left", "a"), ("right", "b")],
     outputs := [("quotient", "q"), ("remainder", "r")], build_complete := true,
     new_inputs := ["a"] },
   { procedure := {}, inputs := [("left", "r"), ("right", "c")],
     outputs := [("quotient", "q2"), ("remainder", "r2")], build_complete := true }]⟩,
  "OK", ""⟩

/-- The pipeline after `put("a", 101)` and `put("b", 7)`. -/
def pipeS2 : Simulator DivmodState := ⟨⟨[
  ("a", { value_type := .tInt, build_complete := true, is_valid := true,
          value := some (.vInt 101), outputs := [0] }),
  ("b", { value_type := .tInt, build_complete := true, is_valid := true,
          value := some (.vInt 7), outputs := [0] }),
  ("c", { value_type := .tInt, build_complete := true, outputs := [1] }),
  ("q", { value_type := .tInt, build_complete := true, input := some 0 }),
  ("r", { value_type := .tInt, build_complete := true, input := some 0, outputs := [1] }),
  ("q2", { value_type := .tInt, build_complete := true, input := some 1 }),
  ("r2", { value_type := .tInt, build_complete := true, input := some 1 })],
  [{ procedure := {}, inputs := [("left", "a"), ("right", "b")],
     outputs := [("quotient", "q"), ("remainder", "r")], build_complete := true,
     new_inputs := ["a", "b"] },
   { procedure := {}, inputs := [("left", "r"), ("right", "c")],
     outputs := [("quotient", "q2"), ("remainder", "r2")], build_complete := true }]⟩,
  "OK", ""⟩

/-- The pipeline after all three puts: sources valid, downstream invalid,
the dirty sets populated by the invalidation cascades. -/
def pipeLoadedLit : Simulator DivmodState := ⟨⟨[
  ("a", { value_type := .tInt, build_complete := true, is_valid := true,
          value := some (.vInt 101), outputs := [0] }),
  ("b", { value_type := .tInt, build_complete := true, is_valid := true,
          value := some (.vInt 7), outputs := [0] }),
  ("c", { value_type := .tInt, build_complete := true, is_valid := true,
          value := some (.vInt 3), outputs := [1] }),
  ("q", { value_type := .tInt, build_complete := true, input := some 0 }),
  ("r", { value_type := .tInt, build_complete := true, input := some 0, outputs := [1] }),
  ("q2", { value_type := .tInt, build_complete := true, input := some 1 }),
  ("r2", { value_type := .tInt, build_complete := true, input := some 1 })],
  [{ procedure := {}, inputs := [("left", "a"), ("right", "b")],
     outputs := [("quotient", "q"), ("remainder", "r")], build_complete := true,
     new_inputs := ["a", "b"] },
   { procedure := {}, inputs := [("left", "r"), ("right", "c")],
     outputs := [("quotient", "q2"), ("remainder", "r2")], build_complete := true,
     new_inputs := ["c"] }]⟩,
  "OK", ""⟩

/-- The pipeline after the first `get("q2")`: every node validated,
`q = 14`, `r = 3`, `q2 = 1`, `r2 = 0`, both adapters fed, dirty sets
empty. -/
def pipeAfterQueryLit : Simulator DivmodState := ⟨⟨[
  ("a", { value_type := .tInt, build_complete := true, is_valid := true,
          value := some (.vInt 101), outputs := [0] }),
  ("b", { value_type := .tInt, build_complete := true, is_valid := true,
          value := some (.vInt 7), outputs := [0] }),
  ("c", { value_type := .tInt, build_complete := true, is_valid := true,
          value := some (.vInt 3), outputs := [1] }),
  ("q", { value_type := .tInt, build_complete := true, is_valid := true,
          value := some (.vInt 14), input := some 0 }),
  ("r", { value_type := .tInt, build_complete := true, is_valid := true,
          value := some (.vInt 3), input := some 0, outputs := [1] }),
  ("q2", { value_type := .tInt, build_complete := true, is_valid := true,
           value := some (.vInt 1), input := some 1 }),
  ("r2", { value_type := .tInt, build_complete := true, is_valid := true,
           value := some (.vInt 0), input := some 1 })],
  [{ procedure := { left := some 101, right := some 7 },
     inputs := [("left", "a"), ("right", "b")],
     outputs := [("quotient", "q"), ("remainder", "r")], build_complete := true },
   { procedure := { left := some 3, right := some 3 },
     inputs := [("left", "r"), ("right", "c")],
     outputs := [("quotient", "q2"), ("remainder", "r2")], build_complete := true }]⟩,
  "OK", ""⟩

/-- The pipeline after a second `put("c", c2)`: only `c` and the second
procedure node are touched — `r` keeps its value and stays valid, the
second adapter still holds the previously fed inputs, and only `c` is in
the dirty set. -/
def pipeChangedC (c2 : Int) : Simulator DivmodState := ⟨⟨[
  ("a", { value_type := .tInt, build_complete := true, is_valid := true,
          value := some (.vInt 101), outputs := [0] }),
  ("b", { value_type := .tInt, build_complete := true, is_valid := true,
          value := some (.vInt 7), outputs := [0] }),
  ("c", { value_type := .tInt, build_complete := true, is_valid := true,
          value := some (.vInt c2), outputs := [1] }),
  ("q", { value_type := .tInt, build_complete := true, is_valid := true,
          value := some (.vInt 14), input := some 0 }),
  ("r", { value_type := .tInt, build_complete := true, is_valid := true,
          value := some (.vInt 3), input := some 0, outputs := [1] }),
  ("q2", { value_type := .tInt, build_complete := true, value := some (.vInt 1),
           input := some 1 }),
  ("r2", { value_type := .tInt, build_complete := true, value := some (.vInt 0),
           input := some 1 })],
  [{ procedure := { left := some 101, right := some 7 },
     inputs := [("left", "a"), ("right", "b")],
     outputs := [("quotient", "q"), ("remainder", "r")], build_complete := true },
   { procedure := { left := some 3, right := some 3 },
     inputs := [("left", "r"), ("right", "c")],
     outputs := [("quotient", "q2"), ("remainder", "r2")], build_complete := true,
     new_inputs := ["c"] }]⟩,
  "OK", ""⟩

/-- The pipeline after the re-query: only the second adapter was re-fed
(its `left` input kept the remembered `3`), and `q2`, `r2` were
re-derived. -/
def pipeFinalC (c2 : Int) : Simulator DivmodState := ⟨⟨[
  ("a", { value_type := .tInt, build_complete := true, is_valid := true,
          value := some (.vInt 101), outputs := [0] }),
  ("b", { value_type := .tInt, build_complete := true, is_valid := true,
          value := some (.vInt 7), outputs := [0] }),
  ("c", { value_type := .tInt, build_complete := true, is_valid := true,
          value := some (.vInt c2), outputs := [1] }),
  ("q", { value_type := .tInt, build_complete := true, is_valid := true,
          value := some (.vInt 14), input := some 0 }),
  ("r", { value_type := .tInt, build_complete := true, is_valid := true,
          value := some (.vInt 3), input := some 0, outputs := [1] }),
  ("q2", { value_type := .tInt, build_complete := true, is_valid := true,
           value := some (.vInt (Int.fdiv 3 c2)), input := some 1 }),
  ("r2", { value_type := .tInt, build_complete := true, is_valid := true,
           value := some (.vInt (Int.fmod 3 c2)), input := some 1 })],
  [{ procedure := { left := some 101, right := some 7 },
     inputs := [("left", "a"), ("right", "b")],
     outputs := [("quotient", "q"), ("remainder", "r")], build_complete := true },
   { procedure := { left := some 3, right := some c2 },
     inputs := [("left", "r"), ("right", "c")],
     outputs := [("quotient", "q2"), ("remainder", "r2")], build_complete := true }]⟩,
  "OK", ""⟩

/-! ## Further concrete fixtures for the claims -/

/-- Patterns of the wiring-diagnostics scenario: `[("a", int),
(Adapter, {"left": "c"}, {})]` with `c` undeclared. -/
def c5Patterns : List (NodePattern DivmodState) :=
  [.value "a" .tInt, .proc {} [("left", .byName "c")] []]

/-- A pattern list whose construction fails (`DUPLICATE_NAME`). -/
def dupPatterns : List (NodePattern Unit) :=
  [.value "a" .tInt, .value "a" .tInt]

/-- Source slots of types `int`, `float` and `complex` with no procedures. -/
def typedSlotPatterns : List (NodePattern Unit) :=
  [.value "a" .tInt, .value "f" .tFloat, .value "z" .tComplex]

def typedSlotSim : Option (Simulator Unit) := buildSimulator typedSlotPatterns

/-- A pipeline whose only procedure always fails when run (its adapter is
`failOps`): `x` feeds the procedure, which produces `y`. -/
def failPipePatterns : List (NodePattern Unit) :=
  [.value "x" .tInt, .proc () [("arg", .byName "x")] [("out", .byName "y")],
   .value "y" .tInt]

/-- The failing pipeline with `x` loaded, so that input validation succeeds
and the failure comes from the procedure itself. -/
def failPipeLoaded : Option (Simulator Unit) :=
  (buildSimulator failPipePatterns).bind fun s0 =>
    (Simulator.put failOps 16 s0 "x" (.vInt 1)).map (·.1)

/-- A sealed one-slot simulator whose slot `a` holds the value `1`:
the state reached by `buildSimulator [("a", int)]` followed by
`put("a", 1)`. -/
def oneSlotLoaded : Simulator Unit :=
  ⟨⟨[("a", { value_type := .tInt, build_complete := true, is_valid := true,
             value := some (.vInt 1) })], []⟩, "OK", ""⟩

/-- A sealed producer-less empty slot `a`: the state built by
`buildSimulator [("a", int)]`. -/
def oneSlotEmpty : Simulator Unit :=
  ⟨⟨[("a", { value_type := .tInt, build_complete := true })], []⟩, "OK", ""⟩

/-- An unsealed value node that already has the producer `0`. -/
def producedNode : ValueNode := ((ValueNode.create .tInt).add_input 0).1

/-- The failing pipeline after `put("x", 1)`: `x` valid and marked new for
the procedure, `y` invalid with producer `0`. -/
def failPipeLoadedLit : Simulator Unit := ⟨⟨[
  ("x", { value_type := .tInt, build_complete := true, is_valid := true,
          value := some (.vInt 1), outputs := [0] }),
  ("y", { value_type := .tInt, build_complete := true, input := some 0 })],
  [{ procedure := (), inputs := [("arg", "x")], outputs := [("out", "y")],
     build_complete := true, new_inputs := ["x"] }]⟩, "OK", ""⟩

/-- The procedure node of the granular-recomputation fixture: two bound
inputs `left ← x`, `right ← y`, two bound outputs; only `x` changed since
the last successful run (`new_inputs = {x}`), and the adapter still holds
the previously fed values. -/
def c8Proc : ProcNode DivmodState :=
  { procedure := { left := some 5, right := some 2 },
    inputs := [("left", "x"), ("right", "y")],
    outputs := [("quotient", "o1"), ("remainder", "o2")],
    build_complete := true,
    new_inputs := ["x"] }

/-- The granular-recomputation fixture graph: `x` was re-written to `7`
(hence marked new for the procedure and the outputs invalidated), `y` is
unchanged. -/
def c8Graph : Graph DivmodState :=
  ⟨[("x", { value_type := .tInt, build_complete := true, is_valid := true,
            value := some (.vInt 7), outputs := [0] }),
    ("y", { value_type := .tInt, build_complete := true, is_valid := true,
            value := some (.vInt 2), outputs := [0] }),
    ("o1", { value_type := .tInt, build_complete := true, input := some 0 }),
    ("o2", { value_type := .tInt, build_complete := true, input := some 0 })],
   [c8Proc]⟩

/-- A procedure pattern that reuses one port name `x` as both an input and
an output, with no bare-type links at all. -/
def portReusePatterns : List (NodePattern DivmodState) :=
  [.value "a" .tInt, .value "b" .tInt,
   .proc {} [("x", .byName "a")] [("x", .byName "b")]]

/-- A bare-type input link whose port name `a` collides with the explicitly
declared slot `a`. -/
def autoExplicitCollisionPatterns : List (NodePattern DivmodState) :=
  [.value "a" .tInt, .proc {} [("a", .byType .tInt)] []]

/-- Two bare-type links creating the same auto slot `x` with different
types. -/
def autoMismatchPatterns : List (NodePattern DivmodState) :=
  [.proc {} [("x", .byType .tInt)] [], .proc {} [("x", .byType .tFloat)] []]

/-- A builder state with an explicitly declared slot `a` that was not
auto-created. -/
def bsExplicitA : BuildState Unit :=
  { values := [("a", ValueNode.create .tInt)] }

/-- A builder state in which slot `x` was auto-created with type `int`. -/
def bsAutoX : BuildState Unit :=
  { values := [("x", ValueNode.create .tInt)],
    auto_value_types := [("x", .tInt)] }

/-! ## Theorems -/

/-- Claim C1: for the Simulator built from the two-stage pipeline patterns
(source slots `a`, `b`, `c`; one divmod node computing `q, r = divmod(a, b)`;
a second computing `q2, r2 = divmod(r, c)` through the shared intermediate
slot `r`): after `put("a", 101)`, `put("b", 7)`, `put("c", 3)` the call
`get("q2")` reports `OK` and returns `1`; and after a `put` that changes
only `c` to any nonzero `c2`, the re-query reports `OK` and returns the
independently recomputed `divmod(101 % 7, c2)[0]`. -/
theorem divmod_pipeline_end_to_end :
    (pipeQueried.map (fun r => (r.2.1, r.2.2)) = some ("OK", PyVal.vInt 1)) ∧
    ∀ c2 : Int, c2 ≠ 0 →
      ((putInt "c" c2 pipeAfterQuery).bind
          (fun s => Simulator.get divmodOps 32 s "q2")).map (fun r => (r.2.1, r.2.2.1))
        = some ("OK", PyVal.vInt (Int.fdiv (Int.fmod 101 7) c2)) := by
  have hb : pipeSim = some pipeSimLit := rfl
  have h1 : Simulator.put divmodOps 32 pipeSimLit "a" (.vInt 101) = some (pipeS1, "OK") := rfl
  have h2 : Simulator.put divmodOps 32 pipeS1 "b" (.vInt 7) = some (pipeS2, "OK") := rfl
  have h3 : Simulator.put divmodOps 32 pipeS2 "c" (.vInt 3) = some (pipeLoadedLit, "OK") := rfl
  have h4 : Simulator.get divmodOps 32 pipeLoadedLit "q2"
      = some (pipeAfterQueryLit, "OK", .vInt 1,
          [(0, "put", "left"), (0, "put", "right"),
           (0, "get", "quotient"), (0, "get", "remainder"),
           (1, "put", "left"), (1, "put", "right"),
           (1, "get", "quotient"), (1, "get", "remainder")]) := by
    simp [Simulator.get, value_validate, proc_validate, validate_inputs, feed_new_inputs,
      write_outputs, value_put, value_get, proc_invalidate_list, proc_invalidate,
      value_invalidate, value_invalidate_list, lookupVal, lookupProc, setVal, setProc,
      addToSet, type_fits, pyIssubclass, PyVal.typeOf, divmodOps, divmodPut, divmodGet,
      pipeLoadedLit, pipeAfterQueryLit]
  have hq : pipeQueried = some (pipeAfterQueryLit, "OK", PyVal.vInt 1) := by
    simp [pipeQueried, pipeLoaded, putInt, hb, h1, h2, h3, h4]
  refine ⟨by rw [hq]; rfl, fun c2 _ => ?_⟩
  have ha : pipeAfterQuery = some pipeAfterQueryLit := by rw [pipeAfterQuery, hq]; rfl
  have h5 : Simulator.put divmodOps 32 pipeAfterQueryLit "c" (.vInt c2)
      = some (pipeChangedC c2, "OK") := rfl
  have h6 : Simulator.get divmodOps 32 (pipeChangedC c2) "q2"
      = some (pipeFinalC c2, "OK", .vInt (Int.fdiv 3 c2),
          [(1, "put", "right"), (1, "get", "quotient"), (1, "get", "remainder")]) := by
    simp [Simulator.get, value_validate, proc_validate, validate_inputs, feed_new_inputs,
      write_outputs, value_put, value_get, proc_invalidate_list, proc_invalidate,
      value_invalidate, value_invalidate_list, lookupVal, lookupProc, setVal, setProc,
      addToSet, type_fits, pyIssubclass, PyVal.typeOf, divmodOps, divmodPut, divmodGet,
      pipeChangedC, pipeFinalC]
  have hm : (Int.fmod 101 7 : Int) = 3 := by decide
  simp [putInt, ha, h5, h6, hm]

theorem divmod_pipeline_end_to_end_witness :
    ((5:Int) ≠ 0) ∧
    ((putInt "c" 5 pipeAfterQuery).bind
        (fun s => Simulator.get divmodOps 32 s "q2")).map (fun r => (r.2.1, r.2.2.1))
      = some ("OK", PyVal.vInt (Int.fdiv (Int.fmod 101 7) 5)) :=
  ⟨by decide, divmod_pipeline_end_to_end.2 5 (by decide)⟩

/-- Claim C5: constructing a Simulator from the pattern list
`[("a", int), (Adapter, {"left": "c"}, {})]`, where no slot named `c` is
declared, fails with the status kind `NAME_NOT_FOUND` and with the
diagnostic message exactly `"Input not found: 'left': 'c'"`. -/
theorem wiring_diagnostic_name_not_found :
    (buildSimulator c5Patterns).map (fun s => (s.initStatus, s.initMessage))
      = some ("NAME_NOT_FOUND", "Input not found: 'left': 'c'") := rfl

/-- Claim C6 (evaluation at the failing input): construction from
`[("a", int), ("a", int)]` records `DUPLICATE_NAME`, and every subsequent
`put` or `get` aborts with an `AssertionError` (here `none`) instead of
reporting a not-initialized status: `Simulator.put`/`get` call
`_set_status` with `"INTERNAL_ERROR"`, which is not among the declared
status values inherited from `Procedure.put`/`Procedure.get`, so the
`assert` inside `tools.Status._set_status` fires. -/
theorem not_initialized_ops_hit_assert :
    ((buildSimulator dupPatterns).map (·.initStatus) = some "DUPLICATE_NAME") ∧
    ((buildSimulator dupPatterns).bind
        (fun s => Simulator.put failOps 8 s "a" (.vInt 1)) = none) ∧
    ((buildSimulator dupPatterns).bind
        (fun s => Simulator.get failOps 8 s "a") = none) ∧
    (set_status_checked simulator_put_statuses "INTERNAL_ERROR" = none) ∧
    (set_status_checked simulator_get_statuses "INTERNAL_ERROR" = none) :=
  ⟨rfl, rfl, rfl, rfl, rfl⟩

/-- Claim C4 (evaluation at the failing input): on the sealed graph with
producer-less slots `a : int`, `f : float`, `z : complex`, the inner
`ValueNode.put` of a string into `a` leaves the graph unchanged and reports
`INCOMPATIBLE_TYPE`, exactly as the claim states; but `Simulator.put`
itself then asserts that the inner put reported `OK`, so the simulator-level
`put("a", "foo")` aborts with an `AssertionError` (`none`) instead of
reporting the status.  Numeric widening (`int` into the `float` or
`complex` slot) succeeds. -/
theorem incompatible_put_behavior :
    (typedSlotSim.bind (fun s => value_put failOps 8 s.graph "a" (.vStr "foo"))
      = typedSlotSim.map (fun s => (s.graph, "INCOMPATIBLE_TYPE"))) ∧
    (typedSlotSim.bind (fun s => Simulator.put failOps 8 s "a" (.vStr "foo")) = none) ∧
    ((typedSlotSim.bind (fun s => Simulator.put failOps 8 s "f" (.vInt 1))).map (·.2)
      = some "OK") ∧
    ((typedSlotSim.bind (fun s => Simulator.put failOps 8 s "z" (.vInt 1))).map (·.2)
      = some "OK") :=
  ⟨rfl, rfl, rfl, rfl⟩

/-- Claim C9: the assignability relation `_type_fits` used at every slot
write is not transitive along the numeric tower: a `bool` satisfies an
`int` slot (subclassing) and an `int` satisfies a `float` or `complex`
slot (numeric widening), but a `bool` satisfies neither a `float` nor a
`complex` slot; accordingly `ValueNode.put` of `True` is accepted by the
`int` slot and rejected with `INCOMPATIBLE_TYPE` by the `float` slot even
though `put` of an `int` value succeeds there. -/
theorem type_fits_non_transitive :
    (type_fits .tBool .tInt = true) ∧
    (type_fits .tInt .tFloat = true) ∧
    (type_fits .tInt .tComplex = true) ∧
    (type_fits .tBool .tFloat = false) ∧
    (type_fits .tBool .tComplex = false) ∧
    ((typedSlotSim.bind (fun s => value_put failOps 8 s.graph "a" (.vBool true))).map (·.2)
      = some "OK") ∧
    (typedSlotSim.bind (fun s => value_put failOps 8 s.graph "f" (.vBool true))
      = typedSlotSim.map (fun s => (s.graph, "INCOMPATIBLE_TYPE"))) ∧
    ((typedSlotSim.bind (fun s => value_put failOps 8 s.graph "f" (.vInt 1))).map (·.2)
      = some "OK") :=
  ⟨rfl, rfl, rfl, rfl, rfl, rfl, rfl, rfl⟩

/-- Claim C2, counterexample: a second attempt to attach the producer `0` to
an unsealed slot that already has producer `0` fails with `ALREADY_LINKED`,
not `TOO_MANY_INPUTS`: the already-linked check of `ValueNode.add_input`
precedes the producer-count check. -/
theorem second_producer_rejected_as_already_linked :
    (producedNode.add_input 0 = (producedNode, "ALREADY_LINKED")) ∧
    ("ALREADY_LINKED" ≠ "TOO_MANY_INPUTS") :=
  ⟨rfl, by decide⟩

/-- Claim C7, counterexample: two failures with different deepest causes —
a producer-less empty slot (`ValueNode.validate` reports
`NO_VALUE_SOURCE`) and a failing upstream procedure (`ValueNode.validate`
reports `INPUT_FAILED` after the procedure's `FAIL`) — both surface
through `Simulator.get` as the same generic status `INCOMPLETE_INPUT`
with value `None`: the deepest distinguishable cause is not carried by
the status that `get` reports. -/
theorem get_collapses_failure_causes :
    ((Simulator.get failOps 8 oneSlotEmpty "a").map (fun r => (r.2.1, r.2.2.1))
      = some ("INCOMPLETE_INPUT", PyVal.vNone)) ∧
    ((value_validate failOps 8 oneSlotEmpty.graph "a").map (fun r => r.2.1)
      = some "NO_VALUE_SOURCE") ∧
    (failPipeLoaded = some failPipeLoadedLit) ∧
    ((Simulator.get failOps 8 failPipeLoadedLit "y").map (fun r => (r.2.1, r.2.2.1))
      = some ("INCOMPLETE_INPUT", PyVal.vNone)) ∧
    ((value_validate failOps 8 failPipeLoadedLit.graph "y").map (fun r => r.2.1)
      = some "INPUT_FAILED") :=
  ⟨rfl, rfl, rfl, rfl, rfl⟩

/-- Claim C2 (amended): over a value slot's lifetime `add_input` attaches at
most one producer — it either leaves the producer unchanged or installs one
where there was none; and before sealing, an attempt to attach a producer
to a slot that already has one always fails and leaves the slot unchanged:
with `TOO_MANY_INPUTS` when the candidate is not yet linked to the slot,
and with `ALREADY_LINKED` when it is (the already-linked check precedes the
producer-count check). -/
theorem at_most_one_producer_amended :
    (∀ (v : ValueNode) (pid : Nat),
      ((v.add_input pid).1.input = v.input) ∨
        (v.input = none ∧ (v.add_input pid).1.input = some pid)) ∧
    (∀ (v : ValueNode) (pid q : Nat), v.build_complete = false → v.input = some q →
      ((v.add_input pid).1 = v ∧ (v.add_input pid).2 ≠ "OK" ∧
       (v.outputs.contains pid = false → pid ≠ q →
         (v.add_input pid).2 = "TOO_MANY_INPUTS") ∧
       (v.outputs.contains pid = true ∨ pid = q →
         (v.add_input pid).2 = "ALREADY_LINKED"))) := by
  constructor
  · intro v pid
    unfold ValueNode.add_input
    by_cases hb : v.build_complete
    · simp [hb]
    · by_cases hl : pid ∈ v.outputs ∨ v.input = some pid
      · simp [hb, hl]
      · by_cases hi : v.input.isSome
        · simp [hb, hl, hi]
        · have hn := Option.not_isSome_iff_eq_none.mp hi
          have ho : pid ∉ v.outputs := fun h => hl (Or.inl h)
          simp [hb, hl, hi, hn, ho]
  · intro v pid q hb hq
    unfold ValueNode.add_input
    by_cases hm : pid ∈ v.outputs ∨ q = pid
    · refine ⟨by simp [hb, hq, hm], by simp [hb, hq, hm], ?_,
        fun _ => by simp [hb, hq, hm]⟩
      intro h1 h2
      simp at h1
      rcases hm with h | h
      · exact absurd h h1
      · exact absurd h.symm h2
    · refine ⟨by simp [hb, hq, hm], by simp [hb, hq, hm],
        fun _ _ => by simp [hb, hq, hm], ?_⟩
      intro h
      exfalso
      apply hm
      rcases h with h | h
      · left
        simpa using h
      · right
        exact h.symm

theorem at_most_one_producer_amended_witness :
    (producedNode.build_complete = false ∧ producedNode.input = some 0 ∧
      (producedNode.add_input 1).2 = "TOO_MANY_INPUTS") ∧
    ((producedNode.add_input 0).2 = "ALREADY_LINKED") ∧
    ((producedNode.add_input 1).1.input = producedNode.input) :=
  ⟨⟨rfl, rfl,
    (at_most_one_producer_amended.2 producedNode 1 0 rfl rfl).2.2.1 (by decide) (by decide)⟩,
   (at_most_one_producer_amended.2 producedNode 0 0 rfl rfl).2.2.2 (Or.inr rfl),
   by
    rcases at_most_one_producer_amended.1 producedNode 1 with h | h
    · exact h
    · exact absurd h.1 (by decide)⟩

/-- Validation of a valid node reports `OK` at once without touching the
graph or calling any adapter (nodes.py lines 640-642). -/
theorem value_validate_of_valid {α : Type} (ops : AdapterOps α) (f : Nat) (g : Graph α)
    (name : String) (v : ValueNode) (hl : lookupVal g name = some v)
    (hb : v.build_complete = true) (hv : v.is_valid = true) :
    value_validate ops (f + 1) g name = some (g, "OK", []) := by
  unfold value_validate
  rw [hl]
  simp [hb, hv]

/-- Claim C3: a `get` that succeeds leaves the graph in a state from which
an immediate second `get` of the same name (with no intervening `put`)
returns the identical value, the identical state, and an empty adapter-call
trace: no `Procedure.put` or `Procedure.get` is invoked again. -/
theorem idempotent_query {α : Type} (ops : AdapterOps α) (fuel f2 : Nat)
    (s s' : Simulator α) (name : String) (v : PyVal) (tr : Trace)
    (h : Simulator.get ops fuel s name = some (s', "OK", v, tr)) :
    Simulator.get ops (f2 + 1) s' name = some (s', "OK", v, []) := by
  unfold Simulator.get at h
  split at h
  · simp [set_status_checked, simulator_get_statuses] at h
  · rename_i hinit
    split at h
    · simp at h
    · rename_i nodeFound hlook
      split at h
      · exact absurd h (by simp)
      · rename_i g1 vst tr1 hval
        split at h
        · simp at h
        · rename_i hvst
          split at h
          · exact absurd h (by simp)
          · rename_i v0 hvget
            simp only [Option.some.injEq, Prod.mk.injEq] at h
            obtain ⟨hs, -, hv0, htr⟩ := h
            have hvst' : vst = "OK" := by simpa using hvst
            have hinit' : s.initStatus = "OK" := by simpa using hinit
            -- invert value_get
            unfold value_get at hvget
            rcases hlk : lookupVal g1 name with _ | nv
            · rw [hlk] at hvget
              exact absurd hvget (by simp)
            · rw [hlk] at hvget
              by_cases hb1 : nv.build_complete
              · by_cases hv1 : nv.is_valid
                · simp [hb1, hv1] at hvget
                  subst hs
                  unfold Simulator.get
                  simp [hinit', hlk,
                    value_validate_of_valid ops f2 g1 name nv hlk hb1 hv1,
                    value_get, hb1, hv1, hvget, hv0]
                · simp [hb1, hv1] at hvget
              · simp [hb1] at hvget

theorem idempotent_query_witness :
    Simulator.get failOps (2 + 1) oneSlotLoaded "a"
      = some (oneSlotLoaded, "OK", .vInt 1, []) :=
  idempotent_query failOps 5 2 oneSlotLoaded oneSlotLoaded "a" (.vInt 1) [] rfl

/-- Claim C7 (amended): a failed `Simulator.get` never returns a stale or
default value — it returns the explicit no-value `None`; and its status is
always one of the two generic kinds `INVALID_NAME` or `INCOMPLETE_INPUT`,
the latter standing for every validation failure. -/
theorem failed_get_returns_none {α : Type} (ops : AdapterOps α) (fuel : Nat)
    (s s' : Simulator α) (name st : String) (v : PyVal) (tr : Trace)
    (h : Simulator.get ops fuel s name = some (s', st, v, tr)) (hst : st ≠ "OK") :
    v = PyVal.vNone ∧ (st = "INVALID_NAME" ∨ st = "INCOMPLETE_INPUT") := by
  unfold Simulator.get at h
  split at h
  · simp [set_status_checked, simulator_get_statuses] at h
  · split at h
    · simp only [Option.some.injEq, Prod.mk.injEq] at h
      obtain ⟨-, h2, h3, -⟩ := h
      exact ⟨h3.symm, Or.inl h2.symm⟩
    · split at h
      · exact absurd h (by simp)
      · split at h
        · simp only [Option.some.injEq, Prod.mk.injEq] at h
          obtain ⟨-, h2, h3, -⟩ := h
          exact ⟨h3.symm, Or.inr h2.symm⟩
        · split at h
          · exact absurd h (by simp)
          · simp only [Option.some.injEq, Prod.mk.injEq] at h
            exact absurd h.2.1.symm hst

theorem failed_get_returns_none_witness :
    ("INCOMPLETE_INPUT" ≠ "OK") ∧
    (PyVal.vNone = PyVal.vNone ∧
      ("INCOMPLETE_INPUT" = "INVALID_NAME" ∨ "INCOMPLETE_INPUT" = "INCOMPLETE_INPUT")) :=
  ⟨by decide,
   failed_get_returns_none failOps 8 oneSlotEmpty oneSlotEmpty "a"
     "INCOMPLETE_INPUT" PyVal.vNone [] rfl (by decide)⟩

/-- Claim C10, counterexample: the pattern list
`[("a", int), ("b", int), (Adapter, {"x": "a"}, {"x": "b"})]` contains no
bare-type link at all — no collision between an auto-created and an
explicitly declared name — yet construction does not return a defined init
status: `ProcedureNode.add_output` reports `DUPLICATE_NAME` for the port
`x` already used as an input, and `Simulator.__add_output` asserts the
report was `OK`, so the constructor aborts with an `AssertionError`. -/
theorem construction_crashes_on_port_name_reuse :
    buildSimulator portReusePatterns = none := rfl

/-- Claim C10 (amended): `Simulator.__add_auto_value` aborts on an internal
assertion whenever the port name of a bare-type link is an existing slot
that was not auto-created (in particular one declared by an explicit value
pattern), while a type conflict between two auto-created slots is reported
through the `AUTO_VALUE_TYPE_MISMATCH` init status; concretely, the
bare-type/explicit-name collision makes construction abort, and the
auto/auto mismatch yields the defined init status.  (A defined init status
is still not guaranteed for every pattern list free of such collisions:
see the counterexample with a reused port name.) -/
theorem auto_value_collision_behavior :
    (∀ (α : Type) (bs : BuildState α) (name : String) (t : PyType),
      containsKey bs.values name = true →
      lookupKey bs.auto_value_types name = none →
      add_auto_value bs name t = none) ∧
    (∀ (α : Type) (bs : BuildState α) (name : String) (t t0 : PyType),
      containsKey bs.values name = true →
      lookupKey bs.auto_value_types name = some t0 →
      t0 ≠ t →
      (add_auto_value bs name t).map (·.status) = some "AUTO_VALUE_TYPE_MISMATCH") ∧
    (buildSimulator autoExplicitCollisionPatterns = none) ∧
    ((buildSimulator autoMismatchPatterns).map (·.initStatus)
      = some "AUTO_VALUE_TYPE_MISMATCH") := by
  refine ⟨?_, ?_, rfl, rfl⟩
  · intro α bs name t h1 h2
    unfold add_auto_value
    have h3 : containsKey bs.auto_value_types name = false := by
      unfold containsKey
      unfold lookupKey at h2
      rcases hf : bs.auto_value_types.find? (·.1 == name) with _ | p
      · simpa using List.find?_eq_none.mp hf
      · rw [hf] at h2
        simp at h2
    rw [h1]
    simp [h2, h3]
  · intro α bs name t t0 h1 h2 hne
    unfold add_auto_value
    rw [h1]
    simp [h2, hne]

/-- Looking up a procedure index that is occupied, after overwriting it,
returns the new node. -/
theorem lookupProc_setProc_self {α : Type} (g : Graph α) (pid : Nat)
    (p0 p : ProcNode α) (h : lookupProc g pid = some p0) :
    lookupProc (setProc g pid p) pid = some p := by
  unfold lookupProc setProc at *
  have hlen : pid < g.procs.length := by
    rcases Nat.lt_or_ge pid g.procs.length with hl | hl
    · exact hl
    · rw [List.getElem?_eq_none hl] at h
      cases h
  exact List.getElem?_set_self hlen

/-- Erasing one element does not change membership of a different one. -/
theorem contains_erase_ne (l : List String) (a b : String) (h : a ≠ b) :
    (l.erase b).contains a = l.contains a := by
  by_cases hm : a ∈ l
  · have h2 : a ∈ l.erase b := (List.mem_erase_of_ne h).mpr hm
    simp [hm, h2]
  · have h2 : a ∉ l.erase b := fun hx => hm ((List.mem_erase_of_ne h).mp hx)
    simp [hm, h2]

/-- The first loop of `ProcedureNode.validate` is the identity when every
input value node is already valid: each `validate` reports `OK` at once
and no adapter is called. -/
theorem validate_inputs_all_valid {α : Type} (ops : AdapterOps α) :
    ∀ (names : List String) (f : Nat) (g : Graph α),
      names.length + 1 ≤ f →
      (∀ n ∈ names, ∃ v, lookupVal g n = some v ∧ v.build_complete = true ∧
        v.is_valid = true) →
      validate_inputs ops f g names = some (g, true, []) := by
  intro names
  induction names with
  | nil =>
    intro f g hf _
    match f, hf with
    | f + 1, _ => rfl
  | cons n rest ih =>
    intro f g hf hv
    match f, hf with
    | f + 1, hf =>
      have hf2 : rest.length + 1 ≤ f := by
        simpa [List.length_cons] using Nat.lt_of_succ_le hf
      match f, hf2 with
      | f2 + 1, hf2 =>
        obtain ⟨v, hl, hb, hvv⟩ := hv n (by simp)
        have h1 := value_validate_of_valid ops f2 g n v hl hb hvv
        have h2 := ih (f2 + 1) g hf2 (fun m hm => hv m (List.mem_cons_of_mem n hm))
        have hstep : validate_inputs ops (f2 + 1 + 1) g (n :: rest)
            = match value_validate ops (f2 + 1) g n with
              | none => none
              | some (g1, st, tr) =>
                if st == "OK" then
                  match validate_inputs ops (f2 + 1) g1 rest with
                  | none => none
                  | some (g2, ok, tr2) => some (g2, ok, tr ++ tr2)
                else some (g1, false, tr) := rfl
        rw [hstep, h1]
        simp [h2]

/-- The second loop of `ProcedureNode.validate` on a successful run feeds
exactly the inputs that were in the dirty set when it started (in input
order), and touches only the procedure node's adapter state and dirty set:
its bound inputs, outputs and build flag are preserved. -/
theorem feed_new_inputs_spec {α : Type} (ops : AdapterOps α) (pid : Nat) :
    ∀ (items : List (String × String)) (g g2 : Graph α) (p : ProcNode α) (tr : Trace),
      lookupProc g pid = some p →
      (items.map (·.2)).Nodup →
      feed_new_inputs ops g pid items = some (g2, true, tr) →
      (tr = (items.filter (fun it => p.new_inputs.contains it.2)).map
          (fun it => (pid, "put", it.1))) ∧
      ∃ p2, lookupProc g2 pid = some p2 ∧ p2.inputs = p.inputs ∧
        p2.outputs = p.outputs ∧ p2.build_complete = p.build_complete := by
  intro items
  induction items with
  | nil =>
    intro g g2 p tr hl _ hf
    unfold feed_new_inputs at hf
    simp only [Option.some.injEq, Prod.mk.injEq] at hf
    obtain ⟨rfl, -, rfl⟩ := hf
    exact ⟨by simp, p, hl, rfl, rfl, rfl⟩
  | cons it rest ih =>
    obtain ⟨slot, vname⟩ := it
    intro g g2 p tr hl hnd hf
    simp only [feed_new_inputs, hl] at hf
    have hnd2 : (rest.map (·.2)).Nodup := by
      simpa using hnd.of_cons
    have hvn : vname ∉ rest.map (·.2) := by
      have := hnd
      simp only [List.map_cons, List.nodup_cons] at this
      exact this.1
    by_cases hmem : vname ∈ p.new_inputs
    · rw [if_neg (by simp [hmem])] at hf
      split at hf
      · exact absurd hf (by simp)
      · rename_i v hv
        split at hf
        · exact absurd hf (by simp)
        · split at hf
          · exact absurd hf (by simp)
          · split at hf
            · exact absurd hf (by simp)
            · rename_i data hdata
              split at hf
              · exact absurd hf (by simp)
              · rename_i hok
                split at hf
                · exact absurd hf (by simp)
                · rename_i res g3 ok3 tr3 hrec
                  simp only [Option.some.injEq, Prod.mk.injEq] at hf
                  obtain ⟨rfl, hok3, rfl⟩ := hf
                  subst hok3
                  have hl2 : lookupProc
                      (setProc g pid
                        { p with procedure := (ops.put p.procedure slot data).1,
                                 new_inputs := p.new_inputs.erase vname })
                      pid = some
                        { p with procedure := (ops.put p.procedure slot data).1,
                                 new_inputs := p.new_inputs.erase vname } :=
                    lookupProc_setProc_self g pid p _ hl
                  obtain ⟨htr, p2, hp2, hin, hout, hbd⟩ := ih _ _ _ _ hl2 hnd2 hrec
                  constructor
                  · have hfc : rest.filter
                        (fun x => (p.new_inputs.erase vname).contains x.2)
                        = rest.filter (fun x => p.new_inputs.contains x.2) := by
                      apply List.filter_congr
                      intro x hx
                      have hne : x.2 ≠ vname := by
                        intro hh
                        exact hvn (hh ▸ List.mem_map_of_mem (·.2) hx)
                      rw [contains_erase_ne _ _ _ hne]
                    simp only [htr, hfc]
                    rw [List.filter_cons_of_pos (by simpa using hmem)]
                    simp
                  · exact ⟨p2, hp2, hin, hout, hbd⟩
    · rw [if_pos (by simpa using hmem)] at hf
      obtain ⟨htr, hshape⟩ := ih g g2 p tr hl hnd2 hf
      constructor
      · rw [List.filter_cons_of_neg (by simpa using hmem)]
        exact htr
      · exact hshape

/-- The third loop of `ProcedureNode.validate` on a successful run queries
the adapter for every bound output slot, in output order. -/
theorem write_outputs_spec {α : Type} (ops : AdapterOps α) (fuel : Nat) (pid : Nat) :
    ∀ (items : List (String × String)) (g g3 : Graph α) (tr : Trace),
      write_outputs ops fuel g pid items = some (g3, true, tr) →
      tr = items.map (fun it => (pid, "get", it.1)) := by
  intro items
  induction items with
  | nil =>
    intro g g3 tr hf
    unfold write_outputs at hf
    simp only [Option.some.injEq, Prod.mk.injEq] at hf
    exact hf.2.2.symm
  | cons it rest ih =>
    obtain ⟨slot, vname⟩ := it
    intro g g3 tr hf
    unfold write_outputs at hf
    split at hf
    · exact absurd hf (by simp)
    · split at hf
      · exact absurd hf (by simp)
      · split at hf
        · exact absurd hf (by simp)
        · rename_i res g2 pst hput
          split at hf
          · exact absurd hf (by simp)
          · split at hf
            · exact absurd hf (by simp)
            · rename_i res2 g4 ok4 tr4 hrec
              simp only [Option.some.injEq, Prod.mk.injEq] at hf
              obtain ⟨rfl, hok4, rfl⟩ := hf
              subst hok4
              simp [ih _ _ _ hrec]

/-- Claim C8: recomputation is input-granular, not whole-node.  For every
procedure node whose bound inputs are all valid (the state after a
successful run followed by `put`s on some subset of sources), a successful
`ProcedureNode.validate` run calls the adapter's `put` exactly for the
inputs in the dirty set (`__new_inputs`) — unchanged inputs are skipped —
and then calls the adapter's `get` for every bound output; concretely, on
the two-input fixture where only `x` changed, the adapter receives one
`put` (`left`) and both outputs are queried and rewritten with the values
recomputed from the refreshed `left = 7` and the remembered `right = 2`. -/
theorem granular_recompute :
    (∀ (α : Type) (ops : AdapterOps α) (f : Nat) (g g' : Graph α) (pid : Nat)
      (p : ProcNode α) (tr : Trace),
      lookupProc g pid = some p →
      p.build_complete = true →
      (p.inputs.map (·.2)).Nodup →
      (∀ vn ∈ p.inputs.map (·.2), ∃ v, lookupVal g vn = some v ∧
        v.build_complete = true ∧ v.is_valid = true) →
      p.inputs.length + 1 ≤ f →
      proc_validate ops (f + 1) g pid = some (g', "OK", tr) →
      tr = (p.inputs.filter (fun it => p.new_inputs.contains it.2)).map
          (fun it => (pid, "put", it.1))
        ++ p.outputs.map (fun it => (pid, "get", it.1))) ∧
    ((proc_validate divmodOps 5 c8Graph 0).map
        (fun r => (r.2.1, r.2.2, lookupVal r.1 "o1", lookupVal r.1 "o2"))
      = some ("OK",
          [(0, "put", "left"), (0, "get", "quotient"), (0, "get", "remainder")],
          some { value_type := .tInt, build_complete := true, is_valid := true,
                 value := some (.vInt 3), input := some 0 },
          some { value_type := .tInt, build_complete := true, is_valid := true,
                 value := some (.vInt 1), input := some 0 })) := by
  constructor
  · intro α ops f g g' pid p tr hl hb hnd hval hf h
    have hvi := validate_inputs_all_valid ops (p.inputs.map (·.2)) f g
      (by simpa using hf) hval
    simp only [proc_validate, hl, hb, hvi, Bool.not_true, Bool.false_eq_true,
      if_false, List.nil_append] at h
    split at h
    · exact absurd h (by simp)
    · rename_i res g2 ok2 tr2 hfeed
      split at h
      · exact absurd h (by simp)
      · rename_i hok2
        have hok2' : ok2 = true := by simpa using hok2
        subst hok2'
        obtain ⟨htr2, p2, hp2, hin2, hout2, hbd2⟩ :=
          feed_new_inputs_spec ops pid p.inputs g g2 p tr2 hl hnd hfeed
        split at h
        · rename_i hp2'
          rw [hp2] at hp2'
          cases hp2'
        · rename_i p2' hp2'
          rw [hp2] at hp2'
          injection hp2' with hpe
          subst hpe
          split at h
          · exact absurd h (by simp)
          · rename_i res2 g3 ok3 tr3 hwrite
            split at h
            · exact absurd h (by simp)
            · rename_i hok3
              have hok3' : ok3 = true := by simpa using hok3
              subst hok3'
              simp only [Option.some.injEq, Prod.mk.injEq] at h
              obtain ⟨rfl, -, rfl⟩ := h
              rw [write_outputs_spec ops f pid p2.outputs g2 g3 tr3 hwrite]
              simp [htr2, hout2]
  · simp [proc_validate, validate_inputs, value_validate, feed_new_inputs, write_outputs,
      value_put, value_get, proc_invalidate_list, proc_invalidate, value_invalidate,
      value_invalidate_list, lookupVal, lookupProc, setVal, setProc, addToSet, type_fits,
      pyIssubclass, PyVal.typeOf, divmodOps, divmodPut, divmodGet, c8Graph, c8Proc]

theorem granular_recompute_witness :
    [((0:Nat), "put", "left"), (0, "get", "quotient"), (0, "get", "remainder")]
      = (c8Proc.inputs.filter (fun it => c8Proc.new_inputs.contains it.2)).map
          (fun it => ((0:Nat), "put", it.1))
        ++ c8Proc.outputs.map (fun it => ((0:Nat), "get", it.1)) := by
  have h := granular_recompute.1 DivmodState divmodOps 4 c8Graph
  refine ?_
  have hval : ∀ vn ∈ c8Proc.inputs.map (·.2), ∃ v, lookupVal c8Graph vn = some v ∧
      v.build_complete = true ∧ v.is_valid = true := by
    intro vn hvn
    simp [c8Proc] at hvn
    rcases hvn with rfl | rfl
    · exact ⟨_, rfl, rfl, rfl⟩
    · exact ⟨_, rfl, rfl, rfl⟩
  exact h _ 0 c8Proc _ rfl rfl (by decide) hval (by decide) rfl

theorem auto_value_collision_behavior_witness :
    (containsKey bsExplicitA.values "a" = true ∧
     lookupKey bsExplicitA.auto_value_types "a" = (none : Option PyType) ∧
     add_auto_value bsExplicitA "a" .tInt = none) ∧
    (containsKey bsAutoX.values "x" = true ∧
     lookupKey bsAutoX.auto_value_types "x" = some PyType.tInt ∧
     PyType.tInt ≠ PyType.tFloat ∧
     (add_auto_value bsAutoX "x" .tFloat).map (·.status)
       = some "AUTO_VALUE_TYPE_MISMATCH") :=
  ⟨⟨rfl, rfl, auto_value_collision_behavior.1 Unit bsExplicitA "a" .tInt rfl rfl⟩,
   ⟨rfl, rfl, by decide,
    auto_value_collision_behavior.2.1 Unit bsAutoX "x" .tFloat .tInt rfl rfl (by decide)⟩⟩

end Sintez
